import Mathlib

/-!
Verification development for the HomeDeck Home Assistant add-on gateway
(`web/server.ts` and its bundled variant). We give a shallow embedding of
the `RemoteWebSocketManager` class, the `isValidHost` predicate, the two
`/proxy/:host/v:api_version/:endpoint` handlers and the mDNS discovery
registry of the `multicast-dns` variant of the server, and prove theorems
about their behaviour.
-/

namespace HomeDeck

/-!
## Association lists

The server keeps its per-host state in JavaScript `Map` objects
(`remoteConnections`, `clientGroups`) and the discovery registry in a plain
object keyed by advertised name. We model all of them as association lists;
`aupdate` models `Map.set` (replace the binding for a key), `adelete` models
`Map.delete`.
-/

def alookup {κ α : Type} [DecidableEq κ] (k : κ) : List (κ × α) → Option α
  | [] => none
  | p :: t => if p.1 = k then some p.2 else alookup k t

def adelete {κ α : Type} [DecidableEq κ] (k : κ) (l : List (κ × α)) : List (κ × α) :=
  l.filter (fun p => decide (p.1 ≠ k))

def aupdate {κ α : Type} [DecidableEq κ] (k : κ) (v : α) (l : List (κ × α)) : List (κ × α) :=
  (k, v) :: adelete k l

theorem alookup_adelete_self {κ α : Type} [DecidableEq κ] (k : κ) (l : List (κ × α)) :
    alookup k (adelete k l) = none := by
  induction l with
  | nil => rfl
  | cons p t ih =>
    by_cases h : p.1 = k
    · simpa [adelete, h] using ih
    · simpa [adelete, alookup, h] using ih

theorem alookup_adelete_ne {κ α : Type} [DecidableEq κ] {k k' : κ} (l : List (κ × α))
    (h : k' ≠ k) : alookup k' (adelete k l) = alookup k' l := by
  induction l with
  | nil => rfl
  | cons p t ih =>
    by_cases hp : p.1 = k
    · have hne : ¬ p.1 = k' := fun hc => h (hc.symm.trans hp)
      have h1 : adelete k (p :: t) = adelete k t := by
        simp [adelete, hp]
      have h2 : alookup k' (p :: t) = alookup k' t := by
        simp [alookup, hne]
      rw [h1, h2]
      exact ih
    · have h1 : adelete k (p :: t) = p :: adelete k t := by
        simp [adelete, hp]
      rw [h1]
      by_cases hq : p.1 = k'
      · simp [alookup, hq]
      · simp [alookup, hq]
        exact ih

theorem alookup_aupdate_self {κ α : Type} [DecidableEq κ] (k : κ) (v : α) (l : List (κ × α)) :
    alookup k (aupdate k v l) = some v := by
  simp [aupdate, alookup]

theorem alookup_aupdate_ne {κ α : Type} [DecidableEq κ] {k k' : κ} (v : α) (l : List (κ × α))
    (h : k' ≠ k) : alookup k' (aupdate k v l) = alookup k' l := by
  have : ¬ k = k' := fun hc => h hc.symm
  simp [aupdate, alookup, this, alookup_adelete_ne l h]

theorem adelete_adelete {κ α : Type} [DecidableEq κ] (k : κ) (l : List (κ × α)) :
    adelete k (adelete k l) = adelete k l := by
  simp [adelete, List.filter_filter]

theorem adelete_aupdate_self {κ α : Type} [DecidableEq κ] (k : κ) (v : α) (l : List (κ × α)) :
    adelete k (aupdate k v l) = adelete k l := by
  simp [aupdate, adelete, List.filter_filter]

theorem aupdate_aupdate_self {κ α : Type} [DecidableEq κ] (k : κ) (v w : α) (l : List (κ × α)) :
    aupdate k v (aupdate k w l) = aupdate k v l := by
  have h := adelete_aupdate_self k w l
  simp [aupdate] at h ⊢
  simp [adelete, List.filter_filter]

/-!
## WebSocket model

A `ws` `WebSocket` object is modelled by its identity (a creation counter,
so that "a new connection was created" is observable), the URL it was opened
against, and its `readyState`. A freshly constructed socket is in
`CONNECTING`; `WebSocket.close()` moves a `CONNECTING`/`OPEN` socket to
`CLOSING` and is a no-op on a socket that is already `CLOSING` or `CLOSED`.
-/

inductive ReadyState : Type
  | CONNECTING
  | OPEN
  | CLOSING
  | CLOSED
deriving DecidableEq

structure WSConn : Type where
  id : Nat
  url : String
  readyState : ReadyState
deriving DecidableEq

def closeWS : ReadyState → ReadyState
  | ReadyState.CONNECTING => ReadyState.CLOSING
  | ReadyState.OPEN => ReadyState.CLOSING
  | r => r

theorem closeWS_closeWS (r : ReadyState) : closeWS (closeWS r) = closeWS r := by
  cases r <;> rfl

/-- The URL `ws://${host}/v${apiVersion}/ws` used by `RemoteWebSocketManager.open`. -/
def wsUrl (host apiVersion : String) : String :=
  "ws://" ++ host ++ "/v" ++ apiVersion ++ "/ws"

/-!
## RemoteWebSocketManager

State of the manager: `remoteConnections : Map<String, WebSocket>`,
`clientGroups : Map<String, Set<WebSocket>>`. Local clients are identified
by `Nat` handles; a client group (a JS `Set`) is a duplicate-free list in
insertion order (`insertClient` appends only when absent, as `Set.add`
does; `eraseClient` removes the element, as `Set.delete` does).
`nextId` is the creation counter for upstream sockets.
-/

structure ManagerState : Type where
  remoteConnections : List (String × WSConn)
  clientGroups : List (String × List Nat)
  nextId : Nat
deriving DecidableEq

def initState : ManagerState :=
  ManagerState.mk [] [] 0

def insertClient (c : Nat) (g : List Nat) : List Nat :=
  if c ∈ g then g else g ++ [c]

def eraseClient (c : Nat) (g : List Nat) : List Nat :=
  g.filter (fun x => decide (x ≠ c))

theorem eraseClient_eraseClient (c : Nat) (g : List Nat) :
    eraseClient c (eraseClient c g) = eraseClient c g := by
  simp [eraseClient, List.filter_filter]

/-- `private registerClient(client, host)`: `this.clientGroups.get(host)?.add(client)` —
adds the client to the existing group for `host`, a no-op when no group exists. -/
def registerClient (c : Nat) (h : String) (s : ManagerState) : ManagerState :=
  match alookup h s.clientGroups with
  | some g => ManagerState.mk s.remoteConnections (aupdate h (insertClient c g) s.clientGroups) s.nextId
  | none => s

/-- Lines 45-74 of `open`: construct `new WebSocket(ws://host/v{apiVersion}/ws)`
(initially `CONNECTING`), store it under `host`, and replace the client group for
`host` by a fresh set containing only `client`. The attached `open`/`close`/`error`/
`message` callbacks are modelled by `onRemoteSocketOpen`, `onRemoteClose` and
`onRemoteMessage` below. -/
def mgrOpenNew (c : Nat) (h v : String) (s : ManagerState) : WSConn × ManagerState :=
  let ws : WSConn := WSConn.mk s.nextId (wsUrl h v) ReadyState.CONNECTING
  (ws, ManagerState.mk (aupdate h ws s.remoteConnections) (aupdate h [c] s.clientGroups) (s.nextId + 1))

/-- `open(client, host, apiVersion)`: if a connection for `host` exists and its
`readyState !== WebSocket.OPEN`, register the client into the existing group and
return the existing connection; otherwise fall through to creating a new one. -/
def mgrOpen (c : Nat) (h v : String) (s : ManagerState) : WSConn × ManagerState :=
  match alookup h s.remoteConnections with
  | some ws =>
    if ws.readyState = ReadyState.OPEN then mgrOpenNew c h v s
    else (ws, registerClient c h s)
  | none => mgrOpenNew c h v s

/-- `remoteWs?.close()` on the connection map: invoke `close()` on the connection
stored for `host`, if any. The map entry itself is not removed. -/
def closeRemoteMap (h : String) (m : List (String × WSConn)) : List (String × WSConn) :=
  match alookup h m with
  | some ws => aupdate h (WSConn.mk ws.id ws.url (closeWS ws.readyState)) m
  | none => m

/-- `remoteWs?.close()` inside `close`: acts on `remoteConnections` only. -/
def closeRemote (h : String) (s : ManagerState) : ManagerState :=
  ManagerState.mk (closeRemoteMap h s.remoteConnections) s.clientGroups s.nextId

theorem closeRemoteMap_idem (h : String) (m : List (String × WSConn)) :
    closeRemoteMap h (closeRemoteMap h m) = closeRemoteMap h m := by
  cases hc : alookup h m with
  | none => simp [closeRemoteMap, hc]
  | some ws =>
    simp [closeRemoteMap, hc, alookup_aupdate_self, closeWS_closeWS, aupdate_aupdate_self]

/-- `close(client, host)`: delete `client` from the group for `host`
(`group?.delete(client)`); then, if there was no group or the group is now empty
(`!group || group.size === 0`), call `close()` on the remote connection and delete
the client-group entry. -/
def mgrClose (c : Nat) (h : String) (s : ManagerState) : ManagerState :=
  let s1 : ManagerState :=
    match alookup h s.clientGroups with
    | some g => ManagerState.mk s.remoteConnections (aupdate h (eraseClient c g) s.clientGroups) s.nextId
    | none => s
  let emptyNow : Bool :=
    match alookup h s.clientGroups with
    | some g => (eraseClient c g).isEmpty
    | none => true
  if emptyNow then
    let s2 := closeRemote h s1
    ManagerState.mk s2.remoteConnections (adelete h s2.clientGroups) s2.nextId
  else s1

/-- The `remoteWs.on('close', ...)` callback: `this.remoteConnections.delete(host)`. -/
def onRemoteClose (h : String) (s : ManagerState) : ManagerState :=
  ManagerState.mk (adelete h s.remoteConnections) s.clientGroups s.nextId

/-- Environment event: the upstream socket for `host` completes its handshake and
its `readyState` becomes `OPEN` (the server's own `on('open')` callback only logs). -/
def onRemoteSocketOpen (h : String) (s : ManagerState) : ManagerState :=
  match alookup h s.remoteConnections with
  | some ws =>
    ManagerState.mk (aupdate h (WSConn.mk ws.id ws.url ReadyState.OPEN) s.remoteConnections)
      s.clientGroups s.nextId
  | none => s

/-- A relayed message: its payload together with the `isBinary` framing flag. -/
structure WsMsg : Type where
  data : String
  isBinary : Bool
deriving DecidableEq

/-- The `remoteWs.on('message', ...)` callback for `host`: look up the *current*
client group (`this.clientGroups.get(host) || new Set()`), and `send` the message
unchanged (with its framing flag) to every member whose `readyState` is `OPEN`.
Returns the list of performed sends together with the (unmodified) manager state;
`clientState` gives each local client's current `readyState`. -/
def onRemoteMessage (h : String) (msg : WsMsg) (clientState : Nat → ReadyState)
    (s : ManagerState) : List (Nat × WsMsg) × ManagerState :=
  let clients := (alookup h s.clientGroups).getD []
  ((clients.filter (fun c => decide (clientState c = ReadyState.OPEN))).map (fun c => (c, msg)), s)

/-!
## Host validator

`isValidHost(str)` first tests the anchored regular expression
`^(?:\d{1,3}\.){3}\d{1,3}:\d{1,5}$`, then splits on `:` and `.` and checks
that each octet's numeric value is in `[0,255]` and the port's in
`[1,65535]`. We work on `List Char`; `splitOnChar` has the semantics of the
JavaScript `String.split` with a single-character separator
(`"".split(c) = [""]`, separators at the ends produce empty fragments).
Since the regex's character classes are disjoint (digits, `.`, `:`) and it
is anchored, a string matches it exactly when splitting on `:` yields two
parts, the first splitting on `.` into exactly four runs of one to three
digits and the second being one to five digits; `regexTest` is that
characterisation. `numVal` is `Number(...)` on an all-digit string.
-/

def splitOnChar (sep : Char) : List Char → List (List Char)
  | [] => [[]]
  | c :: rest =>
    let r := splitOnChar sep rest
    if c = sep then [] :: r
    else
      match r with
      | [] => [[c]]
      | g :: gs => (c :: g) :: gs

def numVal (s : List Char) : Nat :=
  s.foldl (fun a c => a * 10 + (c.toNat - 48)) 0

def regexTest (s : List Char) : Bool :=
  match splitOnChar ':' s with
  | [ip, port] =>
    let octs := splitOnChar '.' ip
    decide (octs.length = 4) &&
      octs.all (fun o => decide (1 ≤ o.length) && decide (o.length ≤ 3) && o.all Char.isDigit) &&
      (decide (1 ≤ port.length) && decide (port.length ≤ 5) && port.all Char.isDigit)
  | _ => false

/-- `isValidHost` from `web/server.ts`: regex test, then range checks on the
octets (`n >= 0 && n <= 255`; values are naturals here, so the lower bound is
kept for fidelity but trivial) and on the port (`>= 1 && <= 65535`). After the
regex passes, the string has exactly one `:`, so the split yields `[ip, port]`. -/
def isValidHost (str : String) : Bool :=
  let s := str.data
  if !regexTest s then false
  else
    match splitOnChar ':' s with
    | [ip, port] =>
      let octets := (splitOnChar '.' ip).map numVal
      let validIp := octets.all (fun n => decide (0 ≤ n) && decide (n ≤ 255))
      let validPort := decide (1 ≤ numVal port) && decide (numVal port ≤ 65535)
      validIp && validPort
    | _ => false

/-- Modelled from the spec sentence of the claim: the string is four
dot-separated decimal integers (nonempty digit runs) each with value in
`[0,255]`, followed by `:`, followed by a decimal integer in `[1,65535]`.
Digit-run lengths are unrestricted. -/
def claimValidHost (str : String) : Bool :=
  match splitOnChar ':' str.data with
  | [ip, port] =>
    match splitOnChar '.' ip with
    | [a, b, c, d] =>
      [a, b, c, d].all (fun o => decide (1 ≤ o.length) && o.all Char.isDigit && decide (numVal o ≤ 255)) &&
        (decide (1 ≤ port.length) && port.all Char.isDigit &&
          decide (1 ≤ numVal port) && decide (numVal port ≤ 65535))
    | _ => false
  | _ => false

/-- The amended shape: as `claimValidHost`, but each octet is one to three
digits and the port one to five digits. -/
def amendedValidHost (str : String) : Bool :=
  match splitOnChar ':' str.data with
  | [ip, port] =>
    match splitOnChar '.' ip with
    | [a, b, c, d] =>
      [a, b, c, d].all (fun o =>
          decide (1 ≤ o.length) && decide (o.length ≤ 3) && o.all Char.isDigit &&
            decide (numVal o ≤ 255)) &&
        (decide (1 ≤ port.length) && decide (port.length ≤ 5) && port.all Char.isDigit &&
          decide (1 ≤ numVal port) && decide (numVal port ≤ 65535))
    | _ => false
  | _ => false

/-!
## Proxy router

The two `/proxy/:host/v:api_version/:endpoint` handlers. The upstream
`fetch` and JSON decoding are modelled by oracles passed as arguments
(`none` = network failure / undecodable body — the `catch` cases);
`ProxyResult.upstreamRequest` records the URL of the upstream request the
handler performed, or `none` when it returned before any network call.
Both handlers are total functions: every outcome, including all failures,
is a well-formed `ProxyResponse` (the `catch` blocks; nothing propagates).
-/

inductive ProxyResponse : Type
  | errorResp (msg : String)
  | jsonResp (body : String)
  | textResp (body : String)
deriving DecidableEq

structure ProxyResult : Type where
  response : ProxyResponse
  upstreamRequest : Option String
deriving DecidableEq

def proxyUrl (host apiVersion endpoint : String) : String :=
  "http://" ++ host ++ "/v" ++ apiVersion ++ "/" ++ endpoint

def getWhitelist : List String :=
  ["configuration", "schema"]

def postWhitelist : List String :=
  ["configuration", "start", "stop"]

/-- The `app.get('/proxy/...')` handler. `fetchText url` is the upstream
response body (`none` on network failure); `parseJson body` is `.json()`
(`none` when the body cannot be decoded). For `schema` the body is relayed
as text, otherwise decoded and re-encoded as JSON. Invalid hosts and
non-whitelisted endpoints are rejected before any upstream request. -/
def proxyGet (host apiVersion endpoint : String)
    (fetchText : String → Option String) (parseJson : String → Option String) : ProxyResult :=
  if !isValidHost host then
    ProxyResult.mk (ProxyResponse.errorResp ("Invalid host: " ++ host)) none
  else if endpoint ∉ getWhitelist then
    ProxyResult.mk (ProxyResponse.errorResp ("Invalid endpoint: " ++ endpoint)) none
  else
    let url := proxyUrl host apiVersion endpoint
    if endpoint = "schema" then
      match fetchText url with
      | some body => ProxyResult.mk (ProxyResponse.textResp body) (some url)
      | none => ProxyResult.mk (ProxyResponse.errorResp ("Unreachable: " ++ url)) (some url)
    else
      match fetchText url with
      | some body =>
        match parseJson body with
        | some j => ProxyResult.mk (ProxyResponse.jsonResp j) (some url)
        | none => ProxyResult.mk (ProxyResponse.errorResp ("Unreachable: " ++ url)) (some url)
      | none => ProxyResult.mk (ProxyResponse.errorResp ("Unreachable: " ++ url)) (some url)

/-- The `app.post('/proxy/...')` handler. `postData` is the serialised request
body; `fetchPost url body` is the upstream POST (`none` on network failure) and
`parseJson` decodes its response body. -/
def proxyPost (host apiVersion endpoint postData : String)
    (fetchPost : String → String → Option String) (parseJson : String → Option String) :
    ProxyResult :=
  if !isValidHost host then
    ProxyResult.mk (ProxyResponse.errorResp ("Invalid host: " ++ host)) none
  else if endpoint ∉ postWhitelist then
    ProxyResult.mk (ProxyResponse.errorResp ("Invalid endpoint: " ++ endpoint)) none
  else
    let url := proxyUrl host apiVersion endpoint
    match fetchPost url postData with
    | some body =>
      match parseJson body with
      | some j => ProxyResult.mk (ProxyResponse.jsonResp j) (some url)
      | none => ProxyResult.mk (ProxyResponse.errorResp ("Unreachable: " ++ url)) (some url)
    | none => ProxyResult.mk (ProxyResponse.errorResp ("Unreachable: " ++ url)) (some url)

/-!
## Discovery registry

The `multicast-dns` variant's `scanMdns` maintains `MDNS_SERVICES`, a table
from advertised name to a partially assembled `MdnsDevice`. Announcement
fragments: a `PTR` answer establishes the record (creating it when absent)
and sets `name`; an `SRV` additional fills `host` and `port` but is dropped
when the name is not yet in the table; an `A` additional fills `address` of
every record whose `host` equals the answer's name; a `TXT` additional fills
`properties` (parsed from `key=value` tokens, a token without `=` or with an
empty value becoming a boolean-true flag) and is likewise dropped for
unknown names.
-/

inductive TxtVal : Type
  | str (s : String)
  | flagTrue
deriving DecidableEq

def parseTxtToken (tok : String) : String × TxtVal :=
  match splitOnChar '=' tok.data with
  | [] => (String.mk [], TxtVal.flagTrue)
  | [k] => (String.mk k, TxtVal.flagTrue)
  | k :: v :: _ =>
    if v.isEmpty then (String.mk k, TxtVal.flagTrue)
    else (String.mk k, TxtVal.str (String.mk v))

def parseTxt (tokens : List String) : List (String × TxtVal) :=
  tokens.foldl (fun m tok => aupdate (parseTxtToken tok).1 (parseTxtToken tok).2 m) []

structure MdnsDevice : Type where
  name : Option String
  host : Option String
  address : Option String
  port : Option Nat
  properties : Option (List (String × TxtVal))
deriving DecidableEq

def emptyDevice : MdnsDevice :=
  MdnsDevice.mk none none none none none

inductive Fragment : Type
  | ptr (name : String)
  | srv (name : String) (target : String) (port : Nat)
  | a (name : String) (address : String)
  | txt (name : String) (tokens : List String)
deriving DecidableEq

def observe (reg : List (String × MdnsDevice)) : Fragment → List (String × MdnsDevice)
  | Fragment.ptr n =>
    let r := (alookup n reg).getD emptyDevice
    aupdate n (MdnsDevice.mk (some n) r.host r.address r.port r.properties) reg
  | Fragment.srv n t p =>
    match alookup n reg with
    | some r => aupdate n (MdnsDevice.mk r.name (some t) r.address (some p) r.properties) reg
    | none => reg
  | Fragment.a n addr =>
    reg.map (fun q =>
      if q.2.host = some n then
        (q.1, MdnsDevice.mk q.2.name q.2.host (some addr) q.2.port q.2.properties)
      else q)
  | Fragment.txt n toks =>
    match alookup n reg with
    | some r => aupdate n (MdnsDevice.mk r.name r.host r.address r.port (some (parseTxt toks))) reg
    | none => reg

def observeAll (fs : List Fragment) : List (String × MdnsDevice) :=
  fs.foldl observe []

/-!
## Concrete inputs used by witnesses and counterexamples
-/

def CH : String := "10.0.0.1:4663"

def CV : String := "1"

def M0 : WsMsg :=
  WsMsg.mk "hello" false

/-- State after client 1 opened `CH` and the upstream handshake completed. -/
def openUpstreamState : ManagerState :=
  onRemoteSocketOpen CH (mgrOpen 1 CH CV initState).2

/-- State after client 0 opened `CH` (upstream still `CONNECTING`). -/
def oneClientState : ManagerState :=
  (mgrOpen 0 CH CV initState).2

/-- A state whose client group for `CH` is `[0, 1]`. -/
def fanoutState : ManagerState :=
  ManagerState.mk [(CH, WSConn.mk 0 (wsUrl CH CV) ReadyState.OPEN)] [(CH, [0, 1])] 1

/-- Client readiness used by witnesses: client 0 is `OPEN`, all others `CLOSED`. -/
def witClientState (c : Nat) : ReadyState :=
  if c = 0 then ReadyState.OPEN else ReadyState.CLOSED

def WHost : String := "127.0.0.1:8080"

def WOp : String := "deleteEverything"

def WBody : String := "payload"

def OpSchema : String := "schema"

def OpConfig : String := "configuration"

def OpStart : String := "start"

/-- An upstream that never answers (every fetch is a network failure). -/
def noFetch : String → Option String :=
  fun _ => none

def noFetchPost : String → String → Option String :=
  fun _ _ => none

/-- An upstream that answers `WBody` to every fetch. -/
def someFetch : String → Option String :=
  fun _ => some WBody

def someFetchPost : String → String → Option String :=
  fun _ _ => some WBody

/-- Advertised instance name of the discovery example device. -/
def devName : String := "HomeDeck._homedeck._tcp.local"

/-- SRV target of the example device. -/
def devTarget : String := "homedeck.local"

def devAddr : String := "192.168.1.5"

/-- The four announcement fragments of the example device. -/
def fragName : Fragment := Fragment.ptr devName

def fragLocation : Fragment := Fragment.srv devName devTarget 4663

def fragAddress : Fragment := Fragment.a devTarget devAddr

def fragAttributes : Fragment := Fragment.txt devName ["version=1.0", "api_version=1"]

def devProps : List (String × TxtVal) :=
  [("api_version", TxtVal.str "1"), ("version", TxtVal.str "1.0")]

/-- Record holding only the name (all later fragments were dropped). -/
def recNameOnly : MdnsDevice :=
  MdnsDevice.mk (some devName) none none none none

/-- Record missing the address (the A fragment arrived before the SRV one). -/
def recNoAddress : MdnsDevice :=
  MdnsDevice.mk (some devName) (some devTarget) none (some 4663) (some devProps)

/-- Fully assembled record. -/
def recComplete : MdnsDevice :=
  MdnsDevice.mk (some devName) (some devTarget) (some devAddr) (some 4663) (some devProps)

def ExTrue1 : String := "127.0.0.1:8080"

def ExFalse1 : String := "256.1.1.1:80"

def ExFalse2 : String := "10.0.0.1:0"

def ExTrue2 : String := "10.0.0.1:65535"

def ExFalse3 : String := "localhost:80"

/-!
## Claim theorems
-/

/-- Claim C5 — `close` is idempotent: running `close(client, host)` a second time
from any manager state leaves the state exactly as after the first run. In
particular it raises no error (it is a total function) and, since `close()` on a
socket already in `CLOSING`/`CLOSED` is a no-op (`closeWS`), the upstream is not
closed a second time; closing an unregistered client or an unknown host is
likewise covered by the universal quantification over states. -/
theorem mgrClose_idem (s : ManagerState) (c : Nat) (h : String) :
    mgrClose c h (mgrClose c h s) = mgrClose c h s := by
  cases hg : alookup h s.clientGroups with
  | none =>
    have h1 : mgrClose c h s
        = ManagerState.mk (closeRemoteMap h s.remoteConnections) (adelete h s.clientGroups)
            s.nextId := by
      simp [mgrClose, hg, closeRemote]
    rw [h1]
    have h2 : alookup h (adelete h s.clientGroups) = (none : Option (List Nat)) :=
      alookup_adelete_self h s.clientGroups
    simp [mgrClose, h2, closeRemote, closeRemoteMap_idem, adelete_adelete]
  | some g =>
    cases hemp : (eraseClient c g).isEmpty with
    | true =>
      have h1 : mgrClose c h s
          = ManagerState.mk (closeRemoteMap h s.remoteConnections) (adelete h s.clientGroups)
              s.nextId := by
        simp [mgrClose, hg, hemp, closeRemote, adelete_aupdate_self]
      rw [h1]
      have h2 : alookup h (adelete h s.clientGroups) = (none : Option (List Nat)) :=
        alookup_adelete_self h s.clientGroups
      simp [mgrClose, h2, closeRemote, closeRemoteMap_idem, adelete_adelete]
    | false =>
      have h1 : mgrClose c h s
          = ManagerState.mk s.remoteConnections (aupdate h (eraseClient c g) s.clientGroups)
              s.nextId := by
        simp [mgrClose, hg, hemp]
      rw [h1]
      have h2 : alookup h (aupdate h (eraseClient c g) s.clientGroups)
          = some (eraseClient c g) :=
        alookup_aupdate_self h (eraseClient c g) s.clientGroups
      have h3 : (eraseClient c (eraseClient c g)).isEmpty = false := by
        rw [eraseClient_eraseClient]
        exact hemp
      simp [mgrClose, h2, h3, eraseClient_eraseClient, aupdate_aupdate_self]
      intro he
      rw [he] at hemp
      simp at hemp

/-- Claim C1 — evaluation of the code at the failing input: client 1 opens host
`CH`, the upstream handshake completes (`readyState` becomes `OPEN`), then client 2
opens the same host while client 1 is still registered. The guard
`remoteWs.readyState !== WebSocket.OPEN` is false, so `open` creates a *second*
upstream connection (creation counter reaches 2), stores it under the host, and
replaces the client group by `{2}` — contradicting "exactly one upstream
connection is created and shared by all N clients regardless of the existing
connection's readiness state". -/
theorem open_creates_second_connection_when_open :
    (mgrOpen 2 CH CV openUpstreamState).2.nextId = 2 ∧
      (mgrOpen 2 CH CV openUpstreamState).1
          = WSConn.mk 1 (wsUrl CH CV) ReadyState.CONNECTING ∧
      alookup CH (mgrOpen 2 CH CV openUpstreamState).2.remoteConnections
          = some (WSConn.mk 1 (wsUrl CH CV) ReadyState.CONNECTING) ∧
      alookup CH (mgrOpen 2 CH CV openUpstreamState).2.clientGroups = some [2] := by
  decide

/-- Claim C2 — counterexample to the claim as stated: after client 0 (the only
member) is closed, the connection entry for the host is still present (in
`CLOSING`; only the asynchronous `'close'` callback deletes it), and a subsequent
`open` does not create a new upstream connection (the creation counter stays at 1
and the stored `CLOSING` socket is returned). -/
theorem close_last_keeps_connection_entry :
    alookup CH (mgrClose 0 CH oneClientState).remoteConnections
        = some (WSConn.mk 0 (wsUrl CH CV) ReadyState.CLOSING) ∧
      (mgrOpen 2 CH CV (mgrClose 0 CH oneClientState)).2.nextId = 1 ∧
      (mgrOpen 2 CH CV (mgrClose 0 CH oneClientState)).1
          = WSConn.mk 0 (wsUrl CH CV) ReadyState.CLOSING := by
  decide

/-- Claim C2 (amended) — after `close(client, host)` removes the last member of
the host's client group, the group entry is deleted and `close()` has been
invoked on the upstream connection (its `readyState` advances by `closeWS`); the
connection entry is removed when the upstream's `'close'` event fires, and once
that event has been processed a subsequent `open` for the host creates a new
upstream connection (fresh id, creation counter incremented). -/
theorem close_last_then_event_teardown (s : ManagerState) (c : Nat) (h v : String)
    (g : List Nat) (ws : WSConn)
    (hg : alookup h s.clientGroups = some g)
    (hlast : eraseClient c g = [])
    (hc : alookup h s.remoteConnections = some ws) :
    alookup h (mgrClose c h s).clientGroups = none ∧
      alookup h (mgrClose c h s).remoteConnections
          = some (WSConn.mk ws.id ws.url (closeWS ws.readyState)) ∧
      alookup h (onRemoteClose h (mgrClose c h s)).remoteConnections = none ∧
      alookup h (onRemoteClose h (mgrClose c h s)).clientGroups = none ∧
      ∀ c2, (mgrOpen c2 h v (onRemoteClose h (mgrClose c h s))).1
            = WSConn.mk s.nextId (wsUrl h v) ReadyState.CONNECTING ∧
          (mgrOpen c2 h v (onRemoteClose h (mgrClose c h s))).2.nextId = s.nextId + 1 := by
  have hemp : (eraseClient c g).isEmpty = true := by
    rw [hlast]
    rfl
  have h1 : mgrClose c h s
      = ManagerState.mk (closeRemoteMap h s.remoteConnections) (adelete h s.clientGroups)
          s.nextId := by
    simp [mgrClose, hg, hemp, closeRemote, adelete_aupdate_self]
  rw [h1]
  have h2 : closeRemoteMap h s.remoteConnections
      = aupdate h (WSConn.mk ws.id ws.url (closeWS ws.readyState)) s.remoteConnections := by
    simp [closeRemoteMap, hc]
  refine ⟨alookup_adelete_self h s.clientGroups, ?_, ?_, ?_, ?_⟩
  · rw [h2]
    exact alookup_aupdate_self h _ s.remoteConnections
  · exact alookup_adelete_self h _
  · exact alookup_adelete_self h s.clientGroups
  · intro c2
    have h3 : alookup h
        (onRemoteClose h (ManagerState.mk (closeRemoteMap h s.remoteConnections)
          (adelete h s.clientGroups) s.nextId)).remoteConnections
        = (none : Option WSConn) := alookup_adelete_self h _
    constructor
    · simp [mgrOpen, onRemoteClose] at h3 ⊢
      rw [h3]
      rfl
    · simp [mgrOpen, onRemoteClose] at h3 ⊢
      rw [h3]
      rfl

/-- Witness for the amended C2 theorem at a concrete state: client 0 is the only
registered client of `CH`; after `close` and the subsequent remote-close event,
both entries are gone and a new `open` creates connection 1. -/
theorem close_last_then_event_teardown_witness :
    alookup CH (mgrClose 0 CH oneClientState).clientGroups = none ∧
      alookup CH (mgrClose 0 CH oneClientState).remoteConnections
          = some (WSConn.mk 0 (wsUrl CH CV) ReadyState.CLOSING) ∧
      alookup CH (onRemoteClose CH (mgrClose 0 CH oneClientState)).remoteConnections = none ∧
      (mgrOpen 7 CH CV (onRemoteClose CH (mgrClose 0 CH oneClientState))).2.nextId = 2 := by
  have hmain := close_last_then_event_teardown oneClientState 0 CH CV [0]
    (WSConn.mk 0 (wsUrl CH CV) ReadyState.CONNECTING) (by decide) (by decide) (by decide)
  exact ⟨hmain.1, hmain.2.1, hmain.2.2.1, (hmain.2.2.2.2 7).2⟩

/-- Claim C3 — fan-out of an inbound upstream message for `host`: the sends
performed are exactly one copy of the message, unchanged (payload and
binary/text framing flag), to each member of the current client group whose
readyState is `OPEN`; the manager state (in particular the group) is unchanged,
so non-open members are skipped but kept. -/
theorem fanout_delivers_to_open_members (s : ManagerState) (h : String) (msg : WsMsg)
    (cs : Nat → ReadyState) (g : List Nat)
    (hg : alookup h s.clientGroups = some g) :
    (∀ c m, (c, m) ∈ (onRemoteMessage h msg cs s).1
        ↔ (c ∈ g ∧ cs c = ReadyState.OPEN ∧ m = msg)) ∧
      (onRemoteMessage h msg cs s).2 = s := by
  constructor
  · intro c m
    simp only [onRemoteMessage, hg, Option.getD_some, List.mem_map, List.mem_filter,
      decide_eq_true_eq, Prod.mk.injEq]
    constructor
    · rintro ⟨x, ⟨hx, hox⟩, hxc, hmm⟩
      exact ⟨hxc ▸ hx, hxc ▸ hox, hmm.symm⟩
    · rintro ⟨hcg, hco, hm⟩
      exact ⟨c, ⟨hcg, hco⟩, rfl, hm.symm⟩
  · rfl

/-- Witness for the fan-out theorem: group `[0, 1]` for `CH`, client 0 open and
client 1 closed; exactly client 0 receives the message. -/
theorem fanout_delivers_to_open_members_witness :
    ((0, M0) ∈ (onRemoteMessage CH M0 witClientState fanoutState).1
        ↔ (0 ∈ [0, 1] ∧ witClientState 0 = ReadyState.OPEN ∧ M0 = M0)) ∧
      (onRemoteMessage CH M0 witClientState fanoutState).2 = fanoutState :=
  ⟨(fanout_delivers_to_open_members fanoutState CH M0 witClientState [0, 1] rfl).1 0 M0,
    (fanout_delivers_to_open_members fanoutState CH M0 witClientState [0, 1] rfl).2⟩

/-- Claim C4 — `open` while a connection for the host exists and is not `OPEN`
(connecting, closing or closed): the client is registered into the existing
client group, the existing connection is returned, no new upstream connection is
created (creation counter unchanged) and the connection map is left unchanged;
client groups of other hosts are untouched. -/
theorem open_reuses_nonopen_connection (s : ManagerState) (c : Nat) (h v : String)
    (ws : WSConn) (g : List Nat)
    (hc : alookup h s.remoteConnections = some ws)
    (hn : ws.readyState ≠ ReadyState.OPEN)
    (hg : alookup h s.clientGroups = some g) :
    (mgrOpen c h v s).1 = ws ∧
      (mgrOpen c h v s).2.remoteConnections = s.remoteConnections ∧
      (mgrOpen c h v s).2.nextId = s.nextId ∧
      alookup h (mgrOpen c h v s).2.clientGroups = some (insertClient c g) ∧
      ∀ h', h' ≠ h → alookup h' (mgrOpen c h v s).2.clientGroups = alookup h' s.clientGroups := by
  have h1 : mgrOpen c h v s = (ws, registerClient c h s) := by
    simp [mgrOpen, hc, hn]
  have h2 : registerClient c h s
      = ManagerState.mk s.remoteConnections (aupdate h (insertClient c g) s.clientGroups)
          s.nextId := by
    simp [registerClient, hg]
  rw [h1, h2]
  refine ⟨rfl, rfl, rfl, alookup_aupdate_self h _ s.clientGroups, ?_⟩
  intro h' hne
  exact alookup_aupdate_ne _ s.clientGroups hne

/-- Witness for the C4 theorem: client 1 opens `CH` while connection 0 is still
`CONNECTING` and the group is `[0]`; the same connection is returned, nothing is
created, and the group becomes `[0, 1]`. -/
theorem open_reuses_nonopen_connection_witness :
    (mgrOpen 1 CH CV oneClientState).1 = WSConn.mk 0 (wsUrl CH CV) ReadyState.CONNECTING ∧
      (mgrOpen 1 CH CV oneClientState).2.remoteConnections
          = oneClientState.remoteConnections ∧
      (mgrOpen 1 CH CV oneClientState).2.nextId = oneClientState.nextId ∧
      alookup CH (mgrOpen 1 CH CV oneClientState).2.clientGroups = some (insertClient 1 [0]) := by
  have hmain := open_reuses_nonopen_connection oneClientState 1 CH CV
    (WSConn.mk 0 (wsUrl CH CV) ReadyState.CONNECTING) [0] (by decide) (by decide) (by decide)
  exact ⟨hmain.1, hmain.2.1, hmain.2.2.1, hmain.2.2.2.1⟩

/-- Claim C10 — `open` while the existing upstream connection for the host is
`OPEN`: a new upstream connection (fresh id, `CONNECTING`, at the host's relay
URL) is created and stored under the host, the creation counter is incremented,
and the client group for the host is replaced by a fresh group containing only
the new client. Consequently a previously registered client of that host (and of
no other host) is no longer a member of any group and no fan-out of an inbound
message for the host delivers anything to it. -/
theorem open_replaces_connection_and_group_when_open (s : ManagerState) (c : Nat)
    (h v : String) (ws : WSConn) (g : List Nat)
    (hc : alookup h s.remoteConnections = some ws)
    (ho : ws.readyState = ReadyState.OPEN)
    (hg : alookup h s.clientGroups = some g) :
    (mgrOpen c h v s).1 = WSConn.mk s.nextId (wsUrl h v) ReadyState.CONNECTING ∧
      alookup h (mgrOpen c h v s).2.remoteConnections
          = some (WSConn.mk s.nextId (wsUrl h v) ReadyState.CONNECTING) ∧
      (mgrOpen c h v s).2.nextId = s.nextId + 1 ∧
      alookup h (mgrOpen c h v s).2.clientGroups = some [c] ∧
      (∀ d, d ∈ g → d ≠ c →
        (∀ h'', (∃ g'', alookup h'' s.clientGroups = some g'' ∧ d ∈ g'') → h'' = h) →
        ∀ h', ¬ ∃ g', alookup h' (mgrOpen c h v s).2.clientGroups = some g' ∧ d ∈ g') ∧
      ∀ d msg cs m, d ∈ g → d ≠ c →
        (d, m) ∉ (onRemoteMessage h msg cs (mgrOpen c h v s).2).1 := by
  have h1 : mgrOpen c h v s = mgrOpenNew c h v s := by
    simp [mgrOpen, hc, ho]
  rw [h1]
  refine ⟨rfl, alookup_aupdate_self h _ s.remoteConnections, rfl,
    alookup_aupdate_self h _ s.clientGroups, ?_, ?_⟩
  · intro d _ hdc honly h'
    rintro ⟨g', hg', hdg'⟩
    by_cases hh : h' = h
    · rw [hh] at hg'
      have : alookup h (mgrOpenNew c h v s).2.clientGroups = some [c] :=
        alookup_aupdate_self h _ s.clientGroups
      rw [this] at hg'
      cases hg'
      simp at hdg'
      exact hdc hdg'
    · have heq : alookup h' (mgrOpenNew c h v s).2.clientGroups = alookup h' s.clientGroups :=
        alookup_aupdate_ne _ s.clientGroups hh
      rw [heq] at hg'
      exact hh (honly h' ⟨g', hg', hdg'⟩)
  · intro d msg cs m _ hdc hmem
    have hgrp : alookup h (mgrOpenNew c h v s).2.clientGroups = some [c] :=
      alookup_aupdate_self h _ s.clientGroups
    simp only [onRemoteMessage, hgrp, Option.getD_some, List.mem_map, List.mem_filter] at hmem
    rcases hmem with ⟨x, ⟨hx, _⟩, hxc⟩
    simp at hx
    rw [hx] at hxc
    exact hdc (by simpa using congrArg Prod.fst hxc.symm)

/-- Witness for the C10 theorem: client 2 opens `CH` while connection 0 is
`OPEN` with group `[1]`; connection 1 is created, the group becomes `[2]`, and
client 1 no longer receives fan-out. -/
theorem open_replaces_connection_and_group_when_open_witness :
    (mgrOpen 2 CH CV openUpstreamState).1 = WSConn.mk 1 (wsUrl CH CV) ReadyState.CONNECTING ∧
      (mgrOpen 2 CH CV openUpstreamState).2.nextId = 2 ∧
      alookup CH (mgrOpen 2 CH CV openUpstreamState).2.clientGroups = some [2] ∧
      (1, M0) ∉ (onRemoteMessage CH M0 witClientState (mgrOpen 2 CH CV openUpstreamState).2).1 := by
  have hmain := open_replaces_connection_and_group_when_open openUpstreamState 2 CH CV
    (WSConn.mk 0 (wsUrl CH CV) ReadyState.OPEN) [1] (by decide) (by decide) (by decide)
  exact ⟨hmain.1, hmain.2.2.1, hmain.2.2.2.1,
    hmain.2.2.2.2.2 1 M0 witClientState M0 (by decide) (by decide)⟩

/-- Claim C7 — for a valid host, an operation outside the method's whitelist
(GET: configuration, schema; POST: configuration, start, stop) makes the handler
return the structured error naming the operation, with no upstream request
performed (`upstreamRequest = none`). -/
theorem proxy_rejects_non_whitelisted (host v e pd : String)
    (ft pj pj2 : String → Option String) (fp : String → String → Option String)
    (hh : isValidHost host = true) :
    (e ∉ getWhitelist →
      proxyGet host v e ft pj
        = ProxyResult.mk (ProxyResponse.errorResp ("Invalid endpoint: " ++ e)) none) ∧
      (e ∉ postWhitelist →
        proxyPost host v e pd fp pj2
          = ProxyResult.mk (ProxyResponse.errorResp ("Invalid endpoint: " ++ e)) none) := by
  constructor
  · intro hw
    simp [proxyGet, hh, hw]
  · intro hw
    simp [proxyPost, hh, hw]

/-- Witness for C7: `deleteEverything` on a valid host is rejected by both
handlers with no upstream request. -/
theorem proxy_rejects_non_whitelisted_witness :
    proxyGet WHost CV WOp noFetch noFetch
        = ProxyResult.mk (ProxyResponse.errorResp ("Invalid endpoint: " ++ WOp)) none ∧
      proxyPost WHost CV WOp WBody noFetchPost noFetch
        = ProxyResult.mk (ProxyResponse.errorResp ("Invalid endpoint: " ++ WOp)) none := by
  have hmain := proxy_rejects_non_whitelisted WHost CV WOp WBody noFetch noFetch noFetch
    noFetchPost (by decide)
  exact ⟨hmain.1 (by decide), hmain.2 (by decide)⟩

/-- Claim C8 — for a valid host and a whitelisted operation, every upstream
failure (network failure of the GET, undecodable body of a GET `configuration`
response, network failure of the POST, undecodable body of a POST response) is
recovered inside the handler, which returns the structured error naming the full
upstream URL. Both handlers are total Lean functions, so no exception escapes:
every call yields a well-formed `ProxyResult`. -/
theorem proxy_unreachable_is_structured_error (host v e pd : String)
    (ft pj pj2 : String → Option String) (fp : String → String → Option String)
    (hh : isValidHost host = true) :
    (e ∈ getWhitelist → ft (proxyUrl host v e) = none →
      (proxyGet host v e ft pj).response
        = ProxyResponse.errorResp ("Unreachable: " ++ proxyUrl host v e)) ∧
      (∀ b, e ∈ getWhitelist → e ≠ "schema" → ft (proxyUrl host v e) = some b → pj b = none →
        (proxyGet host v e ft pj).response
          = ProxyResponse.errorResp ("Unreachable: " ++ proxyUrl host v e)) ∧
      (e ∈ postWhitelist → fp (proxyUrl host v e) pd = none →
        (proxyPost host v e pd fp pj2).response
          = ProxyResponse.errorResp ("Unreachable: " ++ proxyUrl host v e)) ∧
      ∀ b, e ∈ postWhitelist → fp (proxyUrl host v e) pd = some b → pj2 b = none →
        (proxyPost host v e pd fp pj2).response
          = ProxyResponse.errorResp ("Unreachable: " ++ proxyUrl host v e) := by
  refine ⟨?_, ?_, ?_, ?_⟩
  · intro hw hf
    simp only [getWhitelist, List.mem_cons, List.mem_singleton] at hw
    rcases hw with hconf | hschema
    · subst hconf
      simp [proxyGet, hh, hf, getWhitelist]
    · rcases hschema with hschema | hfalse
      · subst hschema
        simp [proxyGet, hh, hf, getWhitelist]
      · cases hfalse
  · intro b hw hs hf hp
    simp only [getWhitelist, List.mem_cons, List.mem_singleton] at hw
    rcases hw with hconf | hschema
    · subst hconf
      simp [proxyGet, hh, hf, hp, getWhitelist]
    · rcases hschema with hschema | hfalse
      · exact absurd hschema hs
      · cases hfalse
  · intro hw hf
    simp only [postWhitelist, List.mem_cons, List.mem_singleton] at hw
    rcases hw with h1 | h1 | h1 | h1
    · subst h1
      simp [proxyPost, hh, hf, postWhitelist]
    · subst h1
      simp [proxyPost, hh, hf, postWhitelist]
    · subst h1
      simp [proxyPost, hh, hf, postWhitelist]
    · cases h1
  · intro b hw hf hp
    simp only [postWhitelist, List.mem_cons, List.mem_singleton] at hw
    rcases hw with h1 | h1 | h1 | h1
    · subst h1
      simp [proxyPost, hh, hf, hp, postWhitelist]
    · subst h1
      simp [proxyPost, hh, hf, hp, postWhitelist]
    · subst h1
      simp [proxyPost, hh, hf, hp, postWhitelist]
    · cases h1

/-- Witness for C8: on the valid host, a network-failing GET of `schema`, a GET
of `configuration` whose body does not decode, a network-failing POST of
`start`, and a POST of `configuration` whose response body does not decode all
return the `Unreachable` error naming the upstream URL. -/
theorem proxy_unreachable_is_structured_error_witness :
    (proxyGet WHost CV OpSchema noFetch noFetch).response
        = ProxyResponse.errorResp ("Unreachable: " ++ proxyUrl WHost CV OpSchema) ∧
      (proxyGet WHost CV OpConfig someFetch noFetch).response
        = ProxyResponse.errorResp ("Unreachable: " ++ proxyUrl WHost CV OpConfig) ∧
      (proxyPost WHost CV OpStart WBody noFetchPost noFetch).response
        = ProxyResponse.errorResp ("Unreachable: " ++ proxyUrl WHost CV OpStart) ∧
      (proxyPost WHost CV OpConfig WBody someFetchPost noFetch).response
        = ProxyResponse.errorResp ("Unreachable: " ++ proxyUrl WHost CV OpConfig) := by
  refine ⟨?_, ?_, ?_, ?_⟩
  · exact (proxy_unreachable_is_structured_error WHost CV OpSchema WBody noFetch noFetch
      noFetch noFetchPost (by decide)).1 (by decide) rfl
  · exact (proxy_unreachable_is_structured_error WHost CV OpConfig WBody someFetch noFetch
      noFetch noFetchPost (by decide)).2.1 WBody (by decide) (by decide) rfl rfl
  · exact (proxy_unreachable_is_structured_error WHost CV OpStart WBody noFetch noFetch
      noFetch noFetchPost (by decide)).2.2.1 (by decide) rfl
  · exact (proxy_unreachable_is_structured_error WHost CV OpConfig WBody noFetch noFetch
      noFetch someFetchPost (by decide)).2.2.2 WBody (by decide) rfl rfl

/-- Claim C9 — counterexample: feeding the four fragments of one device in the
order attributes, location, address, name does not produce the same record as
the order name, address, location, attributes. In the first order everything
before the name announcement is dropped; in the second the address fragment is
dropped because no record's `host` is filled yet. -/
theorem observe_order_matters :
    observeAll [fragAttributes, fragLocation, fragAddress, fragName]
      ≠ observeAll [fragName, fragAddress, fragLocation, fragAttributes] := by
  decide

/-- Claim C9 (amended) — fragment assembly is order-sensitive: a location or
attribute fragment naming a device that has not yet been announced is dropped,
and an address fragment applies only to records whose `host` is already filled
by a location fragment. Feeding attributes, location, address, name yields a
record holding only the name; the order name, address, location, attributes
yields a record missing the address; the record completes only when the name
comes first and the location fragment precedes the address fragment, as in name,
location, address, attributes. -/
theorem observe_order_sensitivity :
    observeAll [fragAttributes, fragLocation, fragAddress, fragName]
        = [(devName, recNameOnly)] ∧
      observeAll [fragName, fragAddress, fragLocation, fragAttributes]
        = [(devName, recNoAddress)] ∧
      observeAll [fragName, fragLocation, fragAddress, fragAttributes]
        = [(devName, recComplete)] := by
  decide

/-- A guarded check of the shape used by `isValidHost` equals the conjunction. -/
theorem if_not_guard (x y : Bool) : (if !x then false else y) = (x && y) := by
  cases x <;> simp

/-- The Host-string used by the C6 counterexample: its first octet is the
four-digit string 0255, whose decimal value 255 is in range. -/
def CexHost : String := "0255.0.0.1:80"

/-- Claim C6 — counterexample to the claimed if-and-only-if: the string
`0255.0.0.1:80` is four dot-separated decimal integers with values 255, 0, 0, 1
in `[0,255]` followed by a port 80 in `[1,65535]` (as formalised from the
claim's words by `claimValidHost`), yet `isValidHost` rejects it because the
regular expression allows at most three digits per octet. -/
theorem isValidHost_claim_counterexample :
    claimValidHost CexHost = true ∧ isValidHost CexHost = false := by
  decide

theorem isValidHost_eq_amendedAux (s : String) : isValidHost s = amendedValidHost s := by
  cases h1 : splitOnChar ':' s.data with
  | nil => simp [isValidHost, amendedValidHost, regexTest, h1]
  | cons ip tl =>
    cases tl with
    | nil => simp [isValidHost, amendedValidHost, regexTest, h1]
    | cons port tl2 =>
      cases tl2 with
      | cons x tl3 => simp [isValidHost, amendedValidHost, regexTest, h1]
      | nil =>
        cases h2 : splitOnChar '.' ip with
        | nil => simp [isValidHost, amendedValidHost, regexTest, h1, h2]
        | cons a tla =>
          cases tla with
          | nil => simp [isValidHost, amendedValidHost, regexTest, h1, h2]
          | cons b tlb =>
            cases tlb with
            | nil => simp [isValidHost, amendedValidHost, regexTest, h1, h2]
            | cons c tlc =>
              cases tlc with
              | nil => simp [isValidHost, amendedValidHost, regexTest, h1, h2]
              | cons d tld =>
                cases tld with
                | cons y tly => simp [isValidHost, amendedValidHost, regexTest, h1, h2]
                | nil =>
                  simp only [isValidHost, amendedValidHost, regexTest, h1, h2, if_not_guard]
                  rw [Bool.eq_iff_iff]
                  simp only [Bool.and_eq_true, List.all_cons, List.all_nil, List.map,
                    decide_eq_true_eq, List.length_cons, List.length_nil, Nat.zero_le,
                    Bool.and_true, Bool.true_and, decide_True]
                  tauto

/-- Claim C6 (amended) — `isValidHost s` is true iff `s` is four dot-separated
runs of one to three decimal digits, each with value in `[0,255]`, followed by
`:` and a run of one to five decimal digits with value in `[1,65535]` (digit
runs may carry leading zeros; the digit-count bounds come from the regular
expression); in particular the five example strings of the claim evaluate as
stated. -/
theorem isValidHost_iff_amended :
    (∀ s : String, isValidHost s = amendedValidHost s) ∧
      isValidHost ExTrue1 = true ∧ isValidHost ExFalse1 = false ∧
      isValidHost ExFalse2 = false ∧ isValidHost ExTrue2 = true ∧
      isValidHost ExFalse3 = false :=
  ⟨isValidHost_eq_amendedAux, by decide, by decide, by decide, by decide, by decide⟩

end HomeDeck
